import Mathlib

/-!
# Verification of `vec1`'s `SmallVec1` (src/smallvec_v1.rs)

Shallow embedding of the `SmallVec1<A>` wrapper: a `smallvec::SmallVec`
wrapper guaranteeing at least one element.  The logical content of a
`SmallVec<A>` with `A = [T; N]` is its element sequence, modelled as a
`List α`; the inline capacity `N` is a phantom type parameter (it never
influences the logical behaviour of the operations modelled here, only
`into_inner`, where it is the required exact length).

Rust's `Result<T, Size0Error>` becomes `Except Size0Error`; a panic of the
underlying buffer (index out of range, over-long length argument) becomes
`Option.none` at an outer layer.  Methods taking `&mut self` become state
passing: they return the (result, post-state) pair, so "the container is
unchanged on failure" is a provable statement.

The repository's `shared_impl!` macro body (which provides `try_pop`,
`try_truncate`, `try_remove`, `try_swap_remove`, `try_resize`,
`split_off_first`, ...) is not part of the sources available here — only
its tests are; those operations are modelled from the specification, and
marked as such in their doc comments.  The external `smallvec` crate is
modelled from its documented contract (`SV` namespace).
-/

/-- `vec1::Size0Error`, the single error kind: a unit struct. -/
inductive Size0Error : Type where
  | size0
  deriving DecidableEq, Repr

/-- `SmallVec1<[α; N]>` from src/smallvec_v1.rs: a newtype over
`SmallVec<[α; N]>`, whose logical content is the element list `buf`.
The ≥ 1 length invariant is *not* baked into the type (just as in Rust it
is maintained by the API, not by the representation); it is proved as the
`runOps` invariant theorem below. -/
structure SmallVec1 (α : Type) (N : Nat) : Type where
  buf : List α
  deriving DecidableEq, Repr

namespace SV

/-! Model of the external `smallvec::SmallVec` collaborator, from its
documented contract (the crate itself is not part of this repository). -/

variable {α : Type}

/-- `SmallVec::from_buf_and_len(buf, len)`: asserts `len <= A::size()`
(panic modelled as `none`), then keeps the first `len` elements of the
buffer. The buffer `buf` is a full array `[T; C]`, so its length is the
array size `C`. -/
def from_buf_and_len (buf : List α) (len : Nat) : Option (List α) :=
  if len ≤ buf.length then some (buf.take len) else none

/-- `SmallVec::remove(index)`: removes and returns the element at `index`,
shifting the rest left; panics (`none`) if `index` is out of range. -/
def remove (l : List α) (index : Nat) : Option (α × List α) :=
  if h : index < l.length then
    some (l.get ⟨index, h⟩, l.take index ++ l.drop (index + 1))
  else
    none

/-- `SmallVec::swap_remove(index)`: removes and returns the element at
`index`, replacing it with the last element; panics (`none`) if `index`
is out of range. -/
def swap_remove (l : List α) (index : Nat) : Option (α × List α) :=
  if h : index < l.length then
    some (l.get ⟨index, h⟩, (l.set index (l.getLast (by intro he; simp [he] at h))).dropLast)
  else
    none

/-- `SmallVec::insert(index, element)`: inserts at `index`, shifting the
rest right; panics (`none`) if `index > len`. -/
def insert (l : List α) (index : Nat) (element : α) : Option (List α) :=
  if index ≤ l.length then some (l.take index ++ element :: l.drop index) else none

/-- `SmallVec::insert_many(index, iterable)`: inserts a sequence at
`index`; panics (`none`) if `index > len`. -/
def insert_many (l : List α) (index : Nat) (xs : List α) : Option (List α) :=
  if index ≤ l.length then some (l.take index ++ xs ++ l.drop index) else none

/-- `SmallVec::resize(new_len, value)`: truncates to `new_len` or grows by
appending clones of `value`. -/
def resize (l : List α) (newLen : Nat) (value : α) : List α :=
  l.take newLen ++ List.replicate (newLen - l.length) value

/-- Adjacent deduplication, the semantics of `SmallVec::dedup`: collapses
runs of consecutive equal elements to a single element. -/
def dedupAdj [DecidableEq α] : List α → List α
  | [] => []
  | [a] => [a]
  | a :: b :: rest => if a = b then dedupAdj (b :: rest) else a :: dedupAdj (b :: rest)

end SV

namespace SmallVec1

variable {α : Type} {N : Nat}

/-- `SmallVec1::try_from_smallvec` (src/smallvec_v1.rs lines 97–103):
fails with `Size0Error` iff the wrapped vector is empty, otherwise adopts
it unchanged. -/
def try_from_smallvec (wrapped : List α) : Except Size0Error (SmallVec1 α N) :=
  if wrapped.isEmpty then Except.error Size0Error.size0 else Except.ok ⟨wrapped⟩

/-- `SmallVec1::try_from_buf_and_len` (src/smallvec_v1.rs lines 110–119):
`Self::try_from_smallvec(SmallVec::from_buf_and_len(buf, len))`.  The
panic of `from_buf_and_len` when `len` exceeds the buffer size surfaces
as `none`. -/
def try_from_buf_and_len (buf : List α) (len : Nat) :
    Option (Except Size0Error (SmallVec1 α buf.length)) :=
  (SV.from_buf_and_len buf len).map try_from_smallvec

/-- `SmallVec1::try_from_elem` (src/smallvec_v1.rs lines 181–187): fails
iff `len == 0`, otherwise `SmallVec::from_elem(element, len)`, i.e. `len`
clones of `element`. -/
def try_from_elem (element : α) (len : Nat) : Except Size0Error (SmallVec1 α N) :=
  if len = 0 then Except.error Size0Error.size0 else Except.ok ⟨List.replicate len element⟩

/-- `SmallVec1::into_inner` (src/smallvec_v1.rs lines 143–145):
`self.0.into_inner().map_err(SmallVec1)`.  `SmallVec::into_inner`
succeeds iff the length equals the array size `N`, yielding the array
(its element sequence); otherwise `self` is returned as the error. -/
def into_inner (v : SmallVec1 α N) : Except (SmallVec1 α N) (List α) :=
  if v.buf.length = N then Except.ok v.buf else Except.error v

/-- `PartialEq<SmallVec1<B>> for SmallVec1<A>` (src/smallvec_v1.rs lines
202–212): `self.0.eq(&other.0)`, which is element-sequence equality of the
two wrapped `SmallVec`s (slice comparison); the inline capacities `N`,
`M` may differ. -/
def eq_impl [BEq α] (a : SmallVec1 α N) {M : Nat} (b : SmallVec1 α M) : Bool :=
  a.buf == b.buf

/-- `SmallVec1::push`: forwarded unguarded (appending cannot empty). -/
def push (v : SmallVec1 α N) (x : α) : SmallVec1 α N :=
  ⟨v.buf ++ [x]⟩

/-- `SmallVec1::insert`: forwarded unguarded to `SmallVec::insert`. -/
def insert (v : SmallVec1 α N) (index : Nat) (x : α) : Option (SmallVec1 α N) :=
  (SV.insert v.buf index x).map (fun l => ⟨l⟩)

/-- `SmallVec1::insert_many` (src/smallvec_v1.rs lines 153–155):
forwarded unguarded to `SmallVec::insert_many`. -/
def insert_many (v : SmallVec1 α N) (index : Nat) (xs : List α) : Option (SmallVec1 α N) :=
  (SV.insert_many v.buf index xs).map (fun l => ⟨l⟩)

/-- `SmallVec1::extend_from_slice`: forwarded unguarded. -/
def extend_from_slice (v : SmallVec1 α N) (xs : List α) : SmallVec1 α N :=
  ⟨v.buf ++ xs⟩

/-- `SmallVec1::dedup`: forwarded unguarded (deduplication collapses
adjacent duplicates and never empties a non-empty vector). -/
def dedup [DecidableEq α] (v : SmallVec1 α N) : SmallVec1 α N :=
  ⟨SV.dedupAdj v.buf⟩

/-- Modelled from the spec (the `shared_impl!` macro body providing
`try_pop` is not among the available sources): succeeds iff `length > 1`,
removing and returning the last element; fails with `Size0Error` iff
`length == 1`, leaving the container unchanged. -/
def try_pop (v : SmallVec1 α N) : Except Size0Error α × SmallVec1 α N :=
  if h : 1 < v.buf.length then
    (Except.ok (v.buf.getLast (by intro he; simp [he] at h)), ⟨v.buf.dropLast⟩)
  else
    (Except.error Size0Error.size0, v)

/-- Modelled from the spec (the `shared_impl!` macro body providing
`try_truncate` is not among the available sources): fails with
`Size0Error` iff `newLen == 0`, leaving the container unchanged;
otherwise truncates to `newLen` (a no-op if `newLen >= length`). -/
def try_truncate (v : SmallVec1 α N) (newLen : Nat) :
    Except Size0Error Unit × SmallVec1 α N :=
  if newLen = 0 then
    (Except.error Size0Error.size0, v)
  else
    (Except.ok (), ⟨v.buf.take newLen⟩)

/-- Modelled from the spec (the `shared_impl!` macro body providing
`try_remove` is not among the available sources): fails with `Size0Error`
iff `length == 1`, leaving the container unchanged; otherwise behaves
exactly like `SmallVec::remove`, including its index-out-of-range panic
(`none`). -/
def try_remove (v : SmallVec1 α N) (index : Nat) :
    Option (Except Size0Error α × SmallVec1 α N) :=
  if v.buf.length = 1 then
    some (Except.error Size0Error.size0, v)
  else
    (SV.remove v.buf index).map (fun p => (Except.ok p.1, ⟨p.2⟩))

/-- Modelled from the spec (the `shared_impl!` macro body providing
`try_swap_remove` is not among the available sources): fails with
`Size0Error` iff `length == 1`, leaving the container unchanged;
otherwise behaves exactly like `SmallVec::swap_remove`, including its
index-out-of-range panic (`none`). -/
def try_swap_remove (v : SmallVec1 α N) (index : Nat) :
    Option (Except Size0Error α × SmallVec1 α N) :=
  if v.buf.length = 1 then
    some (Except.error Size0Error.size0, v)
  else
    (SV.swap_remove v.buf index).map (fun p => (Except.ok p.1, ⟨p.2⟩))

/-- Modelled from the spec (the `shared_impl!` macro body providing
`try_resize` is not among the available sources): fails with `Size0Error`
iff `newLen == 0`, leaving the container unchanged; otherwise grows
(filling with clones of `fill`) or shrinks to `newLen`. -/
def try_resize (v : SmallVec1 α N) (newLen : Nat) (fill : α) :
    Except Size0Error Unit × SmallVec1 α N :=
  if newLen = 0 then
    (Except.error Size0Error.size0, v)
  else
    (Except.ok (), ⟨SV.resize v.buf newLen fill⟩)

/-- Modelled from the spec (the `shared_impl!` macro body providing
`split_off_first` is not among the available sources): consumes the
container, returning the first element and the remainder as the
*unguarded* buffer type (a plain `SmallVec`, modelled by `List α`, which
may be empty).  On an (invariant-violating) empty container the
underlying `remove(0)` would panic, modelled as `none`. -/
def split_off_first (v : SmallVec1 α N) : Option (α × List α) :=
  match v.buf with
  | [] => none
  | h :: t => some (h, t)

end SmallVec1

/-- A public mutating operation of the `SmallVec1` API, for stating the
length invariant over arbitrary operation sequences. -/
inductive Op (α : Type) : Type where
  | push (x : α)
  | insert (index : Nat) (x : α)
  | insert_many (index : Nat) (xs : List α)
  | extend_from_slice (xs : List α)
  | dedup
  | try_pop
  | try_truncate (newLen : Nat)
  | try_remove (index : Nat)
  | try_swap_remove (index : Nat)
  | try_resize (newLen : Nat) (fill : α)
  deriving DecidableEq, Repr

namespace SmallVec1

variable {α : Type} {N : Nat}

/-- The externally observable state after running one public operation on
`v`: the post-state of the mutating call.  A guarded operation that fails
returns the container unchanged; a panicking call (index out of range)
never returns, so no new observable state arises and the pre-state is
kept. -/
def step [DecidableEq α] (v : SmallVec1 α N) : Op α → SmallVec1 α N
  | Op.push x => v.push x
  | Op.insert i x => (v.insert i x).getD v
  | Op.insert_many i xs => (v.insert_many i xs).getD v
  | Op.extend_from_slice xs => v.extend_from_slice xs
  | Op.dedup => v.dedup
  | Op.try_pop => v.try_pop.2
  | Op.try_truncate n => (v.try_truncate n).2
  | Op.try_remove i => ((v.try_remove i).map Prod.snd).getD v
  | Op.try_swap_remove i => ((v.try_swap_remove i).map Prod.snd).getD v
  | Op.try_resize n fill => (v.try_resize n fill).2

/-- The state after a sequence of public operations. -/
def runOps [DecidableEq α] (v : SmallVec1 α N) (ops : List (Op α)) : SmallVec1 α N :=
  ops.foldl step v

end SmallVec1

theorem SV.dedupAdj_ne_nil {α : Type} [DecidableEq α] (l : List α) (h : l ≠ []) :
    SV.dedupAdj l ≠ [] := by
  induction l with
  | nil => exact absurd rfl h
  | cons a t ih =>
    cases t with
    | nil => simp [SV.dedupAdj]
    | cons b rest =>
      rw [SV.dedupAdj]
      split
      · exact ih (by simp)
      · simp

theorem SmallVec1.step_preserves {α : Type} {N : Nat} [DecidableEq α]
    (v : SmallVec1 α N) (h : 1 ≤ v.buf.length) (op : Op α) :
    1 ≤ (v.step op).buf.length := by
  cases op with
  | push x => simp [step, push]
  | insert i x =>
    simp only [step, insert, SV.insert]
    split
    · simp
      omega
    · simpa using h
  | insert_many i xs =>
    simp only [step, insert_many, SV.insert_many]
    split
    · simp
      omega
    · simpa using h
  | extend_from_slice xs =>
    simp only [step, extend_from_slice, List.length_append]
    omega
  | dedup =>
    have := SV.dedupAdj_ne_nil v.buf (by intro he; rw [he] at h; simp at h)
    simp only [step, dedup]
    exact List.length_pos.mpr this
  | try_pop =>
    simp only [step, try_pop]
    split
    · simp only [List.length_dropLast]
      omega
    · exact h
  | try_truncate n =>
    simp only [step, try_truncate]
    split
    · exact h
    · simp only [List.length_take]
      omega
  | try_remove i =>
    simp only [step, try_remove]
    split
    · simpa using h
    · simp only [SV.remove]
      split
      · simp
        omega
      · simpa using h
  | try_swap_remove i =>
    simp only [step, try_swap_remove]
    split
    · simpa using h
    · simp only [SV.swap_remove]
      split
      · simp
        omega
      · simpa using h
  | try_resize n fill =>
    simp only [step, try_resize]
    split
    · exact h
    · simp only [SV.resize, List.length_append, List.length_take, List.length_replicate]
      omega

theorem SmallVec1.runOps_preserves {α : Type} {N : Nat} [DecidableEq α]
    (ops : List (Op α)) (v : SmallVec1 α N) (h : 1 ≤ v.buf.length) :
    1 ≤ (v.runOps ops).buf.length := by
  induction ops generalizing v with
  | nil => exact h
  | cons op rest ih => exact ih (v.step op) (v.step_preserves h op)

/-- C1: for every sequence of public operations on a `SmallVec1` starting
from a successful construction, the length is at least 1 after every
operation that returns successfully; no public operation can leave an
externally observable state with length 0.  (Quantifying over all
operation lists covers every intermediate state, as each prefix is itself
an operation list.) -/
theorem claim_C1_length_invariant {α : Type} {N : Nat} [DecidableEq α]
    (source : List α) (v0 : SmallVec1 α N)
    (h : SmallVec1.try_from_smallvec source = Except.ok v0)
    (ops : List (Op α)) :
    1 ≤ (v0.runOps ops).buf.length := by
  apply SmallVec1.runOps_preserves
  unfold SmallVec1.try_from_smallvec at h
  split at h
  · exact absurd h (by simp)
  · rename_i hne
    cases h
    simpa [List.isEmpty_iff, ← List.length_pos] using hne

/-- Witness for C1 at a concrete construction and operation sequence. -/
theorem claim_C1_length_invariant_witness :
    SmallVec1.try_from_smallvec [5] = Except.ok (⟨[5]⟩ : SmallVec1 Nat 4) ∧
    1 ≤ ((⟨[5]⟩ : SmallVec1 Nat 4).runOps
      [Op.push 7, Op.try_pop, Op.try_pop, Op.try_truncate 0, Op.try_remove 0]).buf.length :=
  ⟨rfl, claim_C1_length_invariant [5] ⟨[5]⟩ rfl _⟩

/-- C2: `try_from_smallvec b` fails with `Size0Error` iff `b` has length
0; on success the resulting container holds exactly the element sequence
of `b`, adopted unchanged. -/
theorem claim_C2_try_from_smallvec {α : Type} {N : Nat} (b : List α) :
    (SmallVec1.try_from_smallvec (N := N) b = Except.error Size0Error.size0 ↔ b.length = 0) ∧
    (∀ v : SmallVec1 α N, SmallVec1.try_from_smallvec b = Except.ok v → v.buf = b) ∧
    (0 < b.length → SmallVec1.try_from_smallvec (N := N) b = Except.ok ⟨b⟩) := by
  unfold SmallVec1.try_from_smallvec
  refine ⟨?_, ?_, ?_⟩
  · split <;> simp_all [List.isEmpty_iff, List.length_eq_zero]
  · intro v hv
    split at hv
    · exact absurd hv (by simp)
    · cases hv
      rfl
  · intro hpos
    split
    · rename_i he
      rw [List.isEmpty_iff] at he
      simp [he] at hpos
    · rfl

/-- Witness for C2: the empty buffer is rejected, a singleton adopted. -/
theorem claim_C2_try_from_smallvec_witness :
    SmallVec1.try_from_smallvec (N := 4) ([] : List Nat) = Except.error Size0Error.size0 ∧
    SmallVec1.try_from_smallvec (N := 4) [3] = Except.ok ⟨[3]⟩ :=
  ⟨(claim_C2_try_from_smallvec []).1.mpr (by decide),
   (claim_C2_try_from_smallvec [3]).2.2 (by decide)⟩

/-- C5: `into_inner` succeeds exactly when the length equals the inline
array size `N`, yielding the `N` elements in order; on any failure the
original container is returned unchanged. -/
theorem claim_C5_into_inner {α : Type} {N : Nat} (v : SmallVec1 α N) :
    ((∃ arr, v.into_inner = Except.ok arr) ↔ v.buf.length = N) ∧
    (∀ arr, v.into_inner = Except.ok arr → arr = v.buf ∧ arr.length = N) ∧
    (∀ w, v.into_inner = Except.error w → w = v) := by
  unfold SmallVec1.into_inner
  split <;> simp_all

/-- Witness for C5: a length-3 container fails the conversion to `[T; 4]`
and is returned unchanged; a length-4 container succeeds. -/
theorem claim_C5_into_inner_witness :
    (⟨[1, 2, 3]⟩ : SmallVec1 Nat 4).into_inner = Except.error ⟨[1, 2, 3]⟩ ∧
    (⟨[1, 2, 3, 4]⟩ : SmallVec1 Nat 4).into_inner = Except.ok [1, 2, 3, 4] ∧
    ¬∃ arr, (⟨[1, 2, 3]⟩ : SmallVec1 Nat 4).into_inner = Except.ok arr :=
  ⟨rfl, rfl, fun hex =>
    absurd ((claim_C5_into_inner (⟨[1, 2, 3]⟩ : SmallVec1 Nat 4)).1.mp hex) (by decide)⟩

/-- C8: `try_from_elem v count` fails with `Size0Error` iff `count == 0`,
and otherwise succeeds producing a container of exactly `count` clones of
`v`. -/
theorem claim_C8_try_from_elem {α : Type} {N : Nat} (e : α) (n : Nat) :
    (SmallVec1.try_from_elem (N := N) e n = Except.error Size0Error.size0 ↔ n = 0) ∧
    (0 < n → SmallVec1.try_from_elem (N := N) e n = Except.ok ⟨List.replicate n e⟩) := by
  unfold SmallVec1.try_from_elem
  refine ⟨?_, ?_⟩
  · split <;> simp_all
  · intro hpos
    split
    · omega
    · rfl

/-- Witness for C8: zero repetitions rejected, three clones produced. -/
theorem claim_C8_try_from_elem_witness :
    SmallVec1.try_from_elem (N := 4) (7 : Nat) 0 = Except.error Size0Error.size0 ∧
    SmallVec1.try_from_elem (N := 4) (7 : Nat) 3 = Except.ok ⟨[7, 7, 7]⟩ :=
  ⟨(claim_C8_try_from_elem 7 0).1.mpr rfl,
   by simpa using (claim_C8_try_from_elem (N := 4) (7 : Nat) 3).2 (by decide)⟩

/-- C3: on every non-empty container, `try_pop` succeeds iff the length is
greater than 1, in which case it removes and returns the last element and
the length decreases by exactly 1; it fails with `Size0Error` iff the
length is 1, and on failure the container is unchanged. -/
theorem claim_C3_try_pop {α : Type} {N : Nat} (v : SmallVec1 α N)
    (h : 1 ≤ v.buf.length) :
    (v.try_pop.1 = Except.error Size0Error.size0 ↔ v.buf.length = 1) ∧
    ((∃ x, v.try_pop.1 = Except.ok x) ↔ 1 < v.buf.length) ∧
    (v.buf.length = 1 → v.try_pop.2 = v) ∧
    (∀ x, v.try_pop.1 = Except.ok x →
      v.buf = v.try_pop.2.buf ++ [x] ∧ v.try_pop.2.buf.length = v.buf.length - 1) := by
  unfold SmallVec1.try_pop
  split
  · rename_i hl
    refine ⟨by simp; omega, by simp; omega, by omega, ?_⟩
    intro x hx
    simp only [Except.ok.injEq] at hx
    subst hx
    constructor
    · exact (List.dropLast_append_getLast (by intro he; simp [he] at hl)).symm
    · simp
  · rename_i hl
    refine ⟨by simp; omega, by simp; omega, fun _ => rfl, ?_⟩
    intro x hx
    exact absurd hx (by simp)

/-- Witness for C3 at the spec's examples: `try_pop` on `[a]` fails
leaving `[a]`; on `[a, b]` it succeeds returning `b`, leaving `[a]`. -/
theorem claim_C3_try_pop_witness :
    ((⟨[10]⟩ : SmallVec1 Nat 4).try_pop.1 = Except.error Size0Error.size0 ∧
      (⟨[10]⟩ : SmallVec1 Nat 4).try_pop.2 = ⟨[10]⟩) ∧
    (⟨[10, 20]⟩ : SmallVec1 Nat 4).try_pop = (Except.ok 20, ⟨[10]⟩) :=
  ⟨⟨(claim_C3_try_pop ⟨[10]⟩ (by decide)).1.mpr rfl,
    (claim_C3_try_pop ⟨[10]⟩ (by decide)).2.2.1 rfl⟩, rfl⟩

/-- Taking one element of a non-empty list yields exactly its head. -/
theorem take_one_eq_head {α : Type} (l : List α) (h : l ≠ []) : l.take 1 = [l.head h] := by
  cases l with
  | nil => exact absurd rfl h
  | cons a t => rfl

/-- C4: `try_truncate newLen` fails with `Size0Error` iff `newLen = 0`
(independently of the current length), leaving the container unchanged;
otherwise it succeeds leaving the first `min newLen length` elements — a
no-op when `newLen ≥ length` — and `try_truncate 1` leaves exactly the
first element. -/
theorem claim_C4_try_truncate {α : Type} {N : Nat} (v : SmallVec1 α N)
    (h : 1 ≤ v.buf.length) :
    (∀ n, (v.try_truncate n).1 = Except.error Size0Error.size0 ↔ n = 0) ∧
    ((v.try_truncate 0).2 = v) ∧
    (∀ n, 0 < n → (v.try_truncate n).1 = Except.ok () ∧
      (v.try_truncate n).2.buf = v.buf.take n ∧
      (v.try_truncate n).2.buf.length = min n v.buf.length) ∧
    (∀ n, v.buf.length ≤ n → (v.try_truncate n).2 = v) ∧
    (∃ hne : v.buf ≠ [], (v.try_truncate 1).2.buf = [v.buf.head hne]) := by
  have hne : v.buf ≠ [] := by intro he; rw [he] at h; simp at h
  refine ⟨?_, ?_, ?_, ?_, hne, ?_⟩
  · intro n
    unfold SmallVec1.try_truncate
    split <;> simp_all
  · rfl
  · intro n hn
    unfold SmallVec1.try_truncate
    split
    · omega
    · simp
  · intro n hlen
    unfold SmallVec1.try_truncate
    split
    · rfl
    · simp only
      congr 1
      exact List.take_of_length_le hlen
  · have h1 : (v.try_truncate 1).2.buf = v.buf.take 1 := by
      unfold SmallVec1.try_truncate
      simp
    rw [h1]
    exact take_one_eq_head v.buf hne

/-- Witness for C4: `try_truncate 0` fails on `[1, 2, 3]` leaving it
unchanged, and `try_truncate 1` leaves exactly the first element. -/
theorem claim_C4_try_truncate_witness :
    ((⟨[1, 2, 3]⟩ : SmallVec1 Nat 4).try_truncate 0).2 = ⟨[1, 2, 3]⟩ ∧
    ((⟨[1, 2, 3]⟩ : SmallVec1 Nat 4).try_truncate 0).1 = Except.error Size0Error.size0 ∧
    ((⟨[1, 2, 3]⟩ : SmallVec1 Nat 4).try_truncate 1).2.buf = [1] :=
  ⟨(claim_C4_try_truncate ⟨[1, 2, 3]⟩ (by decide)).2.1,
   ((claim_C4_try_truncate ⟨[1, 2, 3]⟩ (by decide)).1 0).mpr rfl,
   ((claim_C4_try_truncate ⟨[1, 2, 3]⟩ (by decide)).2.2.2.2).2⟩

/-- C6: equality of two containers (`PartialEq`, possibly with different
inline capacities `N`, `M`) holds iff their logical element sequences are
equal element-by-element; the inline capacity never affects equality. -/
theorem claim_C6_eq_capacity_independent {α : Type} [DecidableEq α] {N M : Nat}
    (a : SmallVec1 α N) (b : SmallVec1 α M) :
    a.eq_impl b = true ↔ a.buf = b.buf := by
  unfold SmallVec1.eq_impl
  exact beq_iff_eq

/-- Witness for C6 at the spec's example: a capacity-4 container holding
`[1, 2, 3]` equals a capacity-8 container holding `[1, 2, 3]`, and
differs from one holding `[2, 2, 3]`. -/
theorem claim_C6_eq_capacity_independent_witness :
    (⟨[1, 2, 3]⟩ : SmallVec1 Nat 4).eq_impl (⟨[1, 2, 3]⟩ : SmallVec1 Nat 8) = true ∧
    ¬(⟨[1, 2, 3]⟩ : SmallVec1 Nat 4).eq_impl (⟨[2, 2, 3]⟩ : SmallVec1 Nat 8) = true :=
  ⟨(claim_C6_eq_capacity_independent _ _).mpr rfl,
   fun hc => absurd ((claim_C6_eq_capacity_independent _ _).mp hc) (by decide)⟩

/-- C7: on every non-empty container, `split_off_first` succeeds and
returns the pair of the first element and the remainder — the other
elements in order, as the unguarded buffer type, possibly empty. -/
theorem claim_C7_split_off_first {α : Type} {N : Nat} (v : SmallVec1 α N)
    (h : v.buf ≠ []) :
    v.split_off_first = some (v.buf.head h, v.buf.tail) := by
  obtain ⟨buf⟩ := v
  cases buf with
  | nil => exact absurd rfl h
  | cons a t => rfl

/-- Witness for C7 at the spec's examples: `[a]` yields `(a, [])` and
`[a, b, c]` yields `(a, [b, c])`. -/
theorem claim_C7_split_off_first_witness :
    (⟨[7]⟩ : SmallVec1 Nat 4).split_off_first = some (7, []) ∧
    (⟨[7, 8, 9]⟩ : SmallVec1 Nat 4).split_off_first = some (7, [8, 9]) :=
  ⟨claim_C7_split_off_first ⟨[7]⟩ (by decide),
   claim_C7_split_off_first ⟨[7, 8, 9]⟩ (by decide)⟩

/-- C9: on every non-empty container, `try_remove index` and
`try_swap_remove index` fail with `Size0Error` iff the length is 1,
leaving the container unchanged; when the length is greater than 1 they
behave exactly like the underlying buffer's `remove` / `swap_remove`,
including propagating its index-out-of-range fault (the panic, `none`),
which is never reported as `Size0Error`. -/
theorem claim_C9_try_remove_swap_remove {α : Type} {N : Nat}
    (v : SmallVec1 α N) (h : 1 ≤ v.buf.length) (i : Nat) :
    ((v.try_remove i = some (Except.error Size0Error.size0, v)) ↔ v.buf.length = 1) ∧
    ((v.try_swap_remove i = some (Except.error Size0Error.size0, v)) ↔ v.buf.length = 1) ∧
    (1 < v.buf.length →
      v.try_remove i =
        (SV.remove v.buf i).map (fun p => (Except.ok p.1, ⟨p.2⟩)) ∧
      v.try_swap_remove i =
        (SV.swap_remove v.buf i).map (fun p => (Except.ok p.1, ⟨p.2⟩))) ∧
    (1 < v.buf.length → v.buf.length ≤ i →
      v.try_remove i = none ∧ v.try_swap_remove i = none) := by
  refine ⟨?_, ?_, ?_, ?_⟩
  · unfold SmallVec1.try_remove
    split
    · simp_all
    · rename_i hl
      simp only [hl, iff_false]
      unfold SV.remove
      split <;> simp
  · unfold SmallVec1.try_swap_remove
    split
    · simp_all
    · rename_i hl
      simp only [hl, iff_false]
      unfold SV.swap_remove
      split <;> simp
  · intro hgt
    constructor
    · unfold SmallVec1.try_remove
      split
      · omega
      · rfl
    · unfold SmallVec1.try_swap_remove
      split
      · omega
      · rfl
  · intro hgt hge
    constructor
    · unfold SmallVec1.try_remove SV.remove
      split
      · omega
      · split
        · omega
        · rfl
    · unfold SmallVec1.try_swap_remove SV.swap_remove
      split
      · omega
      · split
        · omega
        · rfl

/-- Witness for C9: on `[1]` both operations fail with `Size0Error` even
at an out-of-range index; on `[1, 3]` with index 5 both panic (no
`Size0Error`), and with index 0 both match the unguarded buffer ops. -/
theorem claim_C9_try_remove_swap_remove_witness :
    (⟨[1]⟩ : SmallVec1 Nat 4).try_remove 5 = some (Except.error Size0Error.size0, ⟨[1]⟩) ∧
    (⟨[1]⟩ : SmallVec1 Nat 4).try_swap_remove 5 = some (Except.error Size0Error.size0, ⟨[1]⟩) ∧
    (⟨[1, 3]⟩ : SmallVec1 Nat 4).try_remove 5 = none ∧
    (⟨[1, 3]⟩ : SmallVec1 Nat 4).try_swap_remove 5 = none ∧
    (⟨[1, 3]⟩ : SmallVec1 Nat 4).try_remove 0 =
      (SV.remove [1, 3] 0).map (fun p => (Except.ok p.1, ⟨p.2⟩)) :=
  ⟨(claim_C9_try_remove_swap_remove ⟨[1]⟩ (by decide) 5).1.mpr rfl,
   (claim_C9_try_remove_swap_remove ⟨[1]⟩ (by decide) 5).2.1.mpr rfl,
   ((claim_C9_try_remove_swap_remove ⟨[1, 3]⟩ (by decide) 5).2.2.2 (by decide) (by decide)).1,
   ((claim_C9_try_remove_swap_remove ⟨[1, 3]⟩ (by decide) 5).2.2.2 (by decide) (by decide)).2,
   ((claim_C9_try_remove_swap_remove ⟨[1, 3]⟩ (by decide) 0).2.2.1 (by decide)).1⟩

/-- C10: for a buffer `buf` (a full `[T; C]` array, so of length `C`) and
`len ≤ C`, `try_from_buf_and_len buf len` fails with `Size0Error` iff
`len = 0`, and otherwise succeeds with the first `len` elements of `buf`;
when `len > C` it panics (`none`) rather than returning an error, so the
error branch never signals an out-of-range length. -/
theorem claim_C10_try_from_buf_and_len {α : Type} (buf : List α) (len : Nat) :
    (len ≤ buf.length →
      ((SmallVec1.try_from_buf_and_len buf len = some (Except.error Size0Error.size0)) ↔
        len = 0) ∧
      (0 < len →
        SmallVec1.try_from_buf_and_len buf len = some (Except.ok ⟨buf.take len⟩))) ∧
    (buf.length < len → SmallVec1.try_from_buf_and_len buf len = none) := by
  constructor
  · intro hle
    have hbl : SmallVec1.try_from_buf_and_len buf len =
        some (SmallVec1.try_from_smallvec (buf.take len)) := by
      unfold SmallVec1.try_from_buf_and_len SV.from_buf_and_len
      rw [if_pos hle]
      rfl
    rw [hbl]
    unfold SmallVec1.try_from_smallvec
    constructor
    · split
      · rename_i he
        rw [List.isEmpty_iff, List.take_eq_nil_iff] at he
        refine iff_of_true rfl ?_
        rcases he with he | he
        · exact he
        · rw [he] at hle
          simpa using hle
      · rename_i he
        rw [List.isEmpty_iff] at he
        constructor
        · intro hc
          simp at hc
        · intro h0
          rw [h0] at he
          simp at he
    · intro hpos
      split
      · rename_i he
        rw [List.isEmpty_iff, List.take_eq_nil_iff] at he
        rcases he with he | he
        · omega
        · rw [he] at hle
          simp at hle
          omega
      · rfl
  · intro hgt
    unfold SmallVec1.try_from_buf_and_len SV.from_buf_and_len
    rw [if_neg (by omega)]
    rfl

/-- Witness for C10: on a length-3 buffer, `len = 0` is rejected with
`Size0Error`, `len = 2` succeeds with the first two elements, and a `len`
exceeding the buffer size panics (`none`) instead of returning an error. -/
theorem claim_C10_try_from_buf_and_len_witness :
    SmallVec1.try_from_buf_and_len [1, 2, 3] 0 = some (Except.error Size0Error.size0) ∧
    SmallVec1.try_from_buf_and_len [1, 2, 3] 2 = some (Except.ok ⟨[1, 2]⟩) ∧
    SmallVec1.try_from_buf_and_len ([] : List Nat) 3 = none :=
  ⟨((claim_C10_try_from_buf_and_len [1, 2, 3] 0).1 (by decide)).1.mpr rfl,
   ((claim_C10_try_from_buf_and_len [1, 2, 3] 2).1 (by decide)).2 (by decide),
   (claim_C10_try_from_buf_and_len ([] : List Nat) 3).2 (by decide)⟩
